import Mathlib

/-!
# RecipeBank: `tailwind/tailwind.config.js`

The repository's only source file is a CommonJS module whose body is one
assignment, `module.exports = { content: [...], theme: { extend: {} },
plugins: [require(..), require(..), require(..)] }`.

Evaluating that object literal builds two constant fields and then calls the
host's `require` three times, left to right.  `require` belongs to the
JavaScript host, not to the repository, so it is a parameter of the embedding:
a fallible, state-passing function from a module identifier to the exports of
the module.  The state is the host's (its module cache, whatever the loaded
modules did when they ran); an error is a thrown exception, which the literal
does not catch.
-/

namespace TailwindConfig

/-- The JavaScript values that occur in `tailwind.config.js`: string literals,
array literals, object literals (properties in source order) and the exports of
a module obtained from `require`, of a host-chosen type `M`. -/
inductive Value (M : Type) where
  | str : String → Value M
  | arr : List (Value M) → Value M
  | obj : List (String × Value M) → Value M
  | loaded : M → Value M

/-- Property access `v.k` on an object literal; `none` when `v` is not an
object or has no property `k`.  (No literal of the file repeats a key, so the
first binding is the only one.) -/
def Value.get? {M : Type} : Value M → String → Option (Value M)
  | Value.obj fields, k => fields.lookup k
  | _, _ => none

/-- The own property names of an object literal, in source order; `none` for a
value that is not an object. -/
def Value.keys {M : Type} : Value M → Option (List String)
  | Value.obj fields => some (fields.map Prod.fst)
  | _ => none

/-- The elements of an array literal; `none` for a value that is not an
array. -/
def Value.elems {M : Type} : Value M → Option (List (Value M))
  | Value.arr vs => some vs
  | _ => none

/-- Evaluation of the right-hand side of `module.exports = { ... }` in
`tailwind.config.js`, in source order, against the host's `require`. -/
def module_exports {σ ε M : Type} (require : String → StateT σ (Except ε) M) :
    StateT σ (Except ε) (Value M) := do
  let content := Value.arr [
    Value.str "../internal/ui/views/**/*.templ"
  ]
  let theme := Value.obj [
    ("extend", Value.obj [])
  ]
  let plugins ← do
    let forms ← require "@tailwindcss/forms"
    let typography ← require "@tailwindcss/typography"
    let aspectRatio ← require "@tailwindcss/aspect-ratio"
    pure (Value.arr [Value.loaded forms, Value.loaded typography, Value.loaded aspectRatio])
  pure (Value.obj [("content", content), ("theme", theme), ("plugins", plugins)])

/-- Loading the module twice in a row, keeping both records. -/
def loadTwice {σ ε M : Type} (require : String → StateT σ (Except ε) M) :
    StateT σ (Except ε) (Value M × Value M) := do
  let first ← module_exports require
  let second ← module_exports require
  pure (first, second)

/-- The host's `require` instrumented with a log of the identifiers it is
called on, in call order. -/
def traced {σ ε M : Type} (require : String → StateT σ (Except ε) M)
    (id : String) : StateT (σ × List String) (Except ε) M :=
  fun st =>
    match (require id).run st.1 with
    | Except.ok (m, s) => Except.ok (m, (s, st.2 ++ [id]))
    | Except.error e => Except.error e

/-! ## A concrete host -/

/-- A host in the manner of Node: the state is the module cache; a cached
module is returned without any effect, an uncached one is looked up among the
installed packages, run (here yielding `disk id`) and cached, and an unknown
one throws. -/
def cachingRequire {M : Type} (disk : String → Option M) (id : String) :
    StateT (List (String × M)) (Except String) M :=
  fun cache =>
    match cache.lookup id with
    | some m => Except.ok (m, cache)
    | none =>
      match disk id with
      | some m => Except.ok (m, cache ++ [(id, m)])
      | none => Except.error ("Cannot find module " ++ id)

/-- Packages installed next to the configuration: the three Tailwind plugins,
each standing for its own exports. -/
def installed (id : String) : Option String :=
  if id = "@tailwindcss/forms" ∨ id = "@tailwindcss/typography"
      ∨ id = "@tailwindcss/aspect-ratio" then some id else none

/-- The module cache once the three plugins have been loaded. -/
def warmCache : List (String × String) :=
  [("@tailwindcss/forms", "@tailwindcss/forms"),
   ("@tailwindcss/typography", "@tailwindcss/typography"),
   ("@tailwindcss/aspect-ratio", "@tailwindcss/aspect-ratio")]

/-! ## Evaluation lemmas -/

/-- A successful step hands its result to the rest of the computation. -/
theorem ok_bind {ε α β : Type} (x : α) (f : α → Except ε β) :
    (Except.ok x >>= f) = f x := rfl

/-- When the three `require` calls succeed in sequence, evaluation returns the
record built from their results, in the state left by the last call. -/
theorem module_exports_run {σ ε M : Type} (require : String → StateT σ (Except ε) M)
    (s s₁ s₂ s₃ : σ) (a b c : M)
    (hf : (require "@tailwindcss/forms").run s = Except.ok (a, s₁))
    (ht : (require "@tailwindcss/typography").run s₁ = Except.ok (b, s₂))
    (ha : (require "@tailwindcss/aspect-ratio").run s₂ = Except.ok (c, s₃)) :
    (module_exports require).run s =
      Except.ok (Value.obj [
        ("content", Value.arr [Value.str "../internal/ui/views/**/*.templ"]),
        ("theme", Value.obj [("extend", Value.obj [])]),
        ("plugins", Value.arr [Value.loaded a, Value.loaded b, Value.loaded c])], s₃) := by
  simp only [module_exports, StateT.run_bind, StateT.run_pure, hf, ok_bind, ht, ha]
  rfl

/-- The instrumented `require` succeeds where the host's does, and appends the
identifier to the log. -/
theorem traced_run {σ ε M : Type} (require : String → StateT σ (Except ε) M)
    (id : String) (s s₁ : σ) (log : List String) (m : M)
    (h : (require id).run s = Except.ok (m, s₁)) :
    (traced require id).run (s, log) = Except.ok (m, (s₁, log ++ [id])) := by
  simp only [traced, StateT.run, h] at h ⊢
  rw [h]

/-- Successful evaluations are exactly those in which the three `require` calls
succeed in sequence: a returned record is built from their results. -/
theorem module_exports_ok_inv {σ ε M : Type} (require : String → StateT σ (Except ε) M)
    (s s' : σ) (cfg : Value M)
    (h : (module_exports require).run s = Except.ok (cfg, s')) :
    ∃ a s₁ b s₂ c,
      (require "@tailwindcss/forms").run s = Except.ok (a, s₁) ∧
      (require "@tailwindcss/typography").run s₁ = Except.ok (b, s₂) ∧
      (require "@tailwindcss/aspect-ratio").run s₂ = Except.ok (c, s') ∧
      cfg = Value.obj [
        ("content", Value.arr [Value.str "../internal/ui/views/**/*.templ"]),
        ("theme", Value.obj [("extend", Value.obj [])]),
        ("plugins", Value.arr [Value.loaded a, Value.loaded b, Value.loaded c])] := by
  simp only [module_exports, StateT.run_bind, StateT.run_pure] at h
  rcases hf : (require "@tailwindcss/forms").run s with e | ⟨a, s₁⟩
  · rw [hf] at h; cases h
  rw [hf, ok_bind] at h
  rcases ht : (require "@tailwindcss/typography").run s₁ with e | ⟨b, s₂⟩
  · simp only [ht] at h; cases h
  simp only [ht, ok_bind] at h
  rcases ha : (require "@tailwindcss/aspect-ratio").run s₂ with e | ⟨c, s₃⟩
  · simp only [ha] at h; cases h
  simp only [ha, ok_bind] at h
  cases h
  exact ⟨a, s₁, b, s₂, c, rfl, ht, ha, rfl⟩

/-- An uncaught exception of a `require` call is the outcome of evaluation. -/
theorem module_exports_throws {σ ε M : Type} (require : String → StateT σ (Except ε) M)
    (s : σ) (e : ε) (h : (require "@tailwindcss/forms").run s = Except.error e) :
    (module_exports require).run s = Except.error e := by
  simp only [module_exports, StateT.run_bind, StateT.run_pure, h]
  rfl

/-! ## The caching host -/

/-- A binding found in a cache is still found after the cache has grown. -/
theorem lookup_append_of_some {M : Type} (k : String) (v : M) :
    ∀ (l l' : List (String × M)), l.lookup k = some v → (l ++ l').lookup k = some v
  | [], _, h => by cases h
  | (k', v') :: l, l', h => by
    simp only [List.cons_append, List.lookup] at h ⊢
    cases hk : (k == k') with
    | true => rw [hk] at h; exact h
    | false => rw [hk] at h; exact lookup_append_of_some k v l l' h

/-- A binding added at the end of a cache that had none for its key is found. -/
theorem lookup_append_of_none {M : Type} (k : String) (v : M) :
    ∀ (l : List (String × M)), l.lookup k = none → (l ++ [(k, v)]).lookup k = some v
  | [], _ => by simp [List.lookup]
  | (k', v') :: l, h => by
    simp only [List.cons_append, List.lookup] at h ⊢
    cases hk : (k == k') with
    | true => rw [hk] at h; cases h
    | false => rw [hk] at h; exact lookup_append_of_none k v l h

/-- A cached module is returned as it is and the cache is left alone. -/
theorem cachingRequire_cached {M : Type} (disk : String → Option M) (id : String)
    (cache : List (String × M)) (m : M) (h : cache.lookup id = some m) :
    (cachingRequire disk id).run cache = Except.ok (m, cache) := by
  simp only [cachingRequire, StateT.run, h]

/-- After a successful `require` the module is cached, and whatever was cached
before still is. -/
theorem cachingRequire_ok {M : Type} (disk : String → Option M) (id : String)
    (cache cache' : List (String × M)) (m : M)
    (h : (cachingRequire disk id).run cache = Except.ok (m, cache')) :
    cache'.lookup id = some m ∧
      ∀ k v, cache.lookup k = some v → cache'.lookup k = some v := by
  simp only [cachingRequire, StateT.run] at h
  cases hc : cache.lookup id with
  | some m' =>
    rw [hc] at h
    cases h
    exact ⟨hc, fun _ _ hk => hk⟩
  | none =>
    rw [hc] at h
    cases hd : disk id with
    | none => rw [hd] at h; cases h
    | some m' =>
      rw [hd] at h
      cases h
      exact ⟨lookup_append_of_none id m cache hc,
        fun k v hk => lookup_append_of_some k v cache _ hk⟩

/-- On the caching host, whatever the installed packages and the cache at the
start, a load that succeeds is followed by a second load that returns the same
record and changes nothing. -/
theorem cachingRequire_loadTwice {M : Type} (disk : String → Option M)
    (cache cache' : List (String × M)) (cfg : Value M)
    (h : (module_exports (cachingRequire disk)).run cache = Except.ok (cfg, cache')) :
    (loadTwice (cachingRequire disk)).run cache = Except.ok ((cfg, cfg), cache') := by
  obtain ⟨a, s₁, b, s₂, c, hf, ht, ha, rfl⟩ :=
    module_exports_ok_inv (cachingRequire disk) cache cache' cfg h
  obtain ⟨ca, -⟩ := cachingRequire_ok disk _ cache s₁ a hf
  obtain ⟨cb, mb⟩ := cachingRequire_ok disk _ s₁ s₂ b ht
  obtain ⟨cc, mc⟩ := cachingRequire_ok disk _ s₂ cache' c ha
  have h2 := module_exports_run (cachingRequire disk) cache' cache' cache' cache' a b c
    (cachingRequire_cached disk _ cache' a (mc _ _ (mb _ _ ca)))
    (cachingRequire_cached disk _ cache' b (mc _ _ cb))
    (cachingRequire_cached disk _ cache' c cc)
  simp only [loadTwice, StateT.run_bind, StateT.run_pure, h, ok_bind, h2]
  rfl

/-! ## The record's fields -/

/-- C1: when the plugins resolve, loading returns a record whose `content` field
is the array of exactly one string, the glob `../internal/ui/views/**/*.templ`
(so it is not empty). -/
theorem content_is_single_glob {σ ε M : Type} (require : String → StateT σ (Except ε) M)
    (s s₁ s₂ s₃ : σ) (a b c : M)
    (hf : (require "@tailwindcss/forms").run s = Except.ok (a, s₁))
    (ht : (require "@tailwindcss/typography").run s₁ = Except.ok (b, s₂))
    (ha : (require "@tailwindcss/aspect-ratio").run s₂ = Except.ok (c, s₃)) :
    ∃ cfg, (module_exports require).run s = Except.ok (cfg, s₃) ∧
      cfg.get? "content" = some (Value.arr [Value.str "../internal/ui/views/**/*.templ"]) ∧
      (cfg.get? "content").bind Value.elems ≠ some [] :=
  ⟨_, module_exports_run require s s₁ s₂ s₃ a b c hf ht ha, rfl, by
    intro h; cases h⟩

/-- C1 at a host with an empty module cache and the three plugins installed. -/
theorem content_is_single_glob_witness :
    ∃ cfg, (module_exports (cachingRequire installed)).run [] = Except.ok (cfg, warmCache) ∧
      cfg.get? "content" = some (Value.arr [Value.str "../internal/ui/views/**/*.templ"]) ∧
      (cfg.get? "content").bind Value.elems ≠ some [] :=
  content_is_single_glob (cachingRequire installed) []
    [("@tailwindcss/forms", "@tailwindcss/forms")]
    [("@tailwindcss/forms", "@tailwindcss/forms"),
     ("@tailwindcss/typography", "@tailwindcss/typography")]
    warmCache "@tailwindcss/forms" "@tailwindcss/typography" "@tailwindcss/aspect-ratio"
    rfl rfl rfl

/-- C2: when the plugins resolve, loading returns a record whose `plugins` field
is the array of exactly three entries: what `require` returned for
`@tailwindcss/forms`, then for `@tailwindcss/typography`, then for
`@tailwindcss/aspect-ratio`. -/
theorem plugins_are_forms_typography_aspect_ratio {σ ε M : Type}
    (require : String → StateT σ (Except ε) M)
    (s s₁ s₂ s₃ : σ) (a b c : M)
    (hf : (require "@tailwindcss/forms").run s = Except.ok (a, s₁))
    (ht : (require "@tailwindcss/typography").run s₁ = Except.ok (b, s₂))
    (ha : (require "@tailwindcss/aspect-ratio").run s₂ = Except.ok (c, s₃)) :
    ∃ cfg, (module_exports require).run s = Except.ok (cfg, s₃) ∧
      cfg.get? "plugins" =
        some (Value.arr [Value.loaded a, Value.loaded b, Value.loaded c]) :=
  ⟨_, module_exports_run require s s₁ s₂ s₃ a b c hf ht ha, rfl⟩

/-- C2 at a host with an empty module cache and the three plugins installed. -/
theorem plugins_are_forms_typography_aspect_ratio_witness :
    ∃ cfg, (module_exports (cachingRequire installed)).run [] = Except.ok (cfg, warmCache) ∧
      cfg.get? "plugins" =
        some (Value.arr [Value.loaded "@tailwindcss/forms",
          Value.loaded "@tailwindcss/typography", Value.loaded "@tailwindcss/aspect-ratio"]) :=
  plugins_are_forms_typography_aspect_ratio (cachingRequire installed) []
    [("@tailwindcss/forms", "@tailwindcss/forms")]
    [("@tailwindcss/forms", "@tailwindcss/forms"),
     ("@tailwindcss/typography", "@tailwindcss/typography")]
    warmCache "@tailwindcss/forms" "@tailwindcss/typography" "@tailwindcss/aspect-ratio"
    rfl rfl rfl

/-- C3, as stated, fails: in the record loaded by a host with the plugins
installed, the `theme` field has the key `extend`, so it is not an empty
mapping. -/
theorem theme_has_a_key :
    ∃ cfg s', (module_exports (cachingRequire installed)).run [] = Except.ok (cfg, s') ∧
      (cfg.get? "theme").bind Value.keys = some ["extend"] ∧
      (cfg.get? "theme").bind Value.keys ≠ some [] :=
  ⟨_, warmCache, rfl, rfl, by intro h; cases h⟩

/-- C3, amended: when the plugins resolve, loading returns a record whose
`theme` field is a mapping with exactly one key, `extend`, bound to an empty
mapping. -/
theorem theme_is_extend_only {σ ε M : Type} (require : String → StateT σ (Except ε) M)
    (s s₁ s₂ s₃ : σ) (a b c : M)
    (hf : (require "@tailwindcss/forms").run s = Except.ok (a, s₁))
    (ht : (require "@tailwindcss/typography").run s₁ = Except.ok (b, s₂))
    (ha : (require "@tailwindcss/aspect-ratio").run s₂ = Except.ok (c, s₃)) :
    ∃ cfg, (module_exports require).run s = Except.ok (cfg, s₃) ∧
      cfg.get? "theme" = some (Value.obj [("extend", Value.obj [])]) ∧
      (cfg.get? "theme").bind Value.keys = some ["extend"] :=
  ⟨_, module_exports_run require s s₁ s₂ s₃ a b c hf ht ha, rfl, rfl⟩

/-- C3, amended, at a host whose module cache already holds the three
plugins. -/
theorem theme_is_extend_only_witness :
    ∃ cfg, (module_exports (cachingRequire installed)).run warmCache
        = Except.ok (cfg, warmCache) ∧
      cfg.get? "theme" = some (Value.obj [("extend", Value.obj [])]) ∧
      (cfg.get? "theme").bind Value.keys = some ["extend"] :=
  theme_is_extend_only (cachingRequire installed) warmCache warmCache warmCache warmCache
    "@tailwindcss/forms" "@tailwindcss/typography" "@tailwindcss/aspect-ratio"
    rfl rfl rfl

/-- C4: when the plugins resolve, loading returns a record in which
`theme.extend` is present and is the empty mapping: it names no design
token. -/
theorem theme_extend_is_empty {σ ε M : Type} (require : String → StateT σ (Except ε) M)
    (s s₁ s₂ s₃ : σ) (a b c : M)
    (hf : (require "@tailwindcss/forms").run s = Except.ok (a, s₁))
    (ht : (require "@tailwindcss/typography").run s₁ = Except.ok (b, s₂))
    (ha : (require "@tailwindcss/aspect-ratio").run s₂ = Except.ok (c, s₃)) :
    ∃ cfg, (module_exports require).run s = Except.ok (cfg, s₃) ∧
      (cfg.get? "theme").bind (fun theme => theme.get? "extend") = some (Value.obj []) ∧
      ((cfg.get? "theme").bind (fun theme => theme.get? "extend")).bind Value.keys
        = some [] :=
  ⟨_, module_exports_run require s s₁ s₂ s₃ a b c hf ht ha, rfl, rfl⟩

/-- C4 at a host with an empty module cache and the three plugins installed. -/
theorem theme_extend_is_empty_witness :
    ∃ cfg, (module_exports (cachingRequire installed)).run [] = Except.ok (cfg, warmCache) ∧
      (cfg.get? "theme").bind (fun theme => theme.get? "extend") = some (Value.obj []) ∧
      ((cfg.get? "theme").bind (fun theme => theme.get? "extend")).bind Value.keys
        = some [] :=
  theme_extend_is_empty (cachingRequire installed) []
    [("@tailwindcss/forms", "@tailwindcss/forms")]
    [("@tailwindcss/forms", "@tailwindcss/forms"),
     ("@tailwindcss/typography", "@tailwindcss/typography")]
    warmCache "@tailwindcss/forms" "@tailwindcss/typography" "@tailwindcss/aspect-ratio"
    rfl rfl rfl

/-- C5: loading has no parameter of its own (only the host's `require` and
state); when the plugins resolve it returns a record whose top-level fields are
exactly `content`, `theme` and `plugins`. -/
theorem exports_has_three_fields {σ ε M : Type} (require : String → StateT σ (Except ε) M)
    (s s₁ s₂ s₃ : σ) (a b c : M)
    (hf : (require "@tailwindcss/forms").run s = Except.ok (a, s₁))
    (ht : (require "@tailwindcss/typography").run s₁ = Except.ok (b, s₂))
    (ha : (require "@tailwindcss/aspect-ratio").run s₂ = Except.ok (c, s₃)) :
    ∃ cfg, (module_exports require).run s = Except.ok (cfg, s₃) ∧
      cfg.keys = some ["content", "theme", "plugins"] ∧
      ∀ k, (cfg.get? k).isSome ↔ k = "content" ∨ k = "theme" ∨ k = "plugins" := by
  refine ⟨_, module_exports_run require s s₁ s₂ s₃ a b c hf ht ha, rfl, ?_⟩
  intro k
  by_cases h1 : k = "content"
  · subst h1; simp [Value.get?, List.lookup]
  by_cases h2 : k = "theme"
  · subst h2; simp [Value.get?, List.lookup]
  by_cases h3 : k = "plugins"
  · subst h3; simp [Value.get?, List.lookup]
  have e1 : (k == "content") = false := by simpa using h1
  have e2 : (k == "theme") = false := by simpa using h2
  have e3 : (k == "plugins") = false := by simpa using h3
  simp [Value.get?, List.lookup, h1, h2, h3, e1, e2, e3]

/-- C5 at a host with an empty module cache and the three plugins installed. -/
theorem exports_has_three_fields_witness :
    ∃ cfg, (module_exports (cachingRequire installed)).run [] = Except.ok (cfg, warmCache) ∧
      cfg.keys = some ["content", "theme", "plugins"] ∧
      ∀ k, (cfg.get? k).isSome ↔ k = "content" ∨ k = "theme" ∨ k = "plugins" :=
  exports_has_three_fields (cachingRequire installed) []
    [("@tailwindcss/forms", "@tailwindcss/forms")]
    [("@tailwindcss/forms", "@tailwindcss/forms"),
     ("@tailwindcss/typography", "@tailwindcss/typography")]
    warmCache "@tailwindcss/forms" "@tailwindcss/typography" "@tailwindcss/aspect-ratio"
    rfl rfl rfl

/-! ## Effects of loading -/

/-- C7, as stated, fails: on a host with an empty module cache and the plugins
installed, loading returns the record and leaves the cache holding three
modules, so evaluation did more than produce the record. -/
theorem load_fills_module_cache :
    ∃ cfg, (module_exports (cachingRequire installed)).run [] =
        Except.ok (cfg,
          [("@tailwindcss/forms", "@tailwindcss/forms"),
           ("@tailwindcss/typography", "@tailwindcss/typography"),
           ("@tailwindcss/aspect-ratio", "@tailwindcss/aspect-ratio")]) ∧
      ([("@tailwindcss/forms", "@tailwindcss/forms"),
        ("@tailwindcss/typography", "@tailwindcss/typography"),
        ("@tailwindcss/aspect-ratio", "@tailwindcss/aspect-ratio")] : List (String × String))
        ≠ [] :=
  ⟨_, rfl, by intro h; cases h⟩

/-- C7, amended: loading performs exactly three `require` calls, for
`@tailwindcss/forms`, `@tailwindcss/typography` and `@tailwindcss/aspect-ratio`
in that order, and has no effect beyond theirs.  For every host on which the
calls succeed: the load returns a record in the state left by the third call;
the instrumented host logs these three identifiers and nothing else; and a
second load on which `require` returns the same exports for the same
identifiers, whatever it does to the state, returns the same record. -/
theorem load_effects_are_those_of_require {σ ε M : Type}
    (require : String → StateT σ (Except ε) M) (s s₁ s₂ s₃ : σ) (a b c : M)
    (log : List String)
    (hf : (require "@tailwindcss/forms").run s = Except.ok (a, s₁))
    (ht : (require "@tailwindcss/typography").run s₁ = Except.ok (b, s₂))
    (ha : (require "@tailwindcss/aspect-ratio").run s₂ = Except.ok (c, s₃)) :
    ∃ cfg, (module_exports require).run s = Except.ok (cfg, s₃) ∧
      (module_exports (traced require)).run (s, log) =
        Except.ok (cfg, (s₃, log ++ ["@tailwindcss/forms", "@tailwindcss/typography",
          "@tailwindcss/aspect-ratio"])) ∧
      ∀ s₄ s₅ s₆ : σ,
        (require "@tailwindcss/forms").run s₃ = Except.ok (a, s₄) →
        (require "@tailwindcss/typography").run s₄ = Except.ok (b, s₅) →
        (require "@tailwindcss/aspect-ratio").run s₅ = Except.ok (c, s₆) →
        (loadTwice require).run s = Except.ok ((cfg, cfg), s₆) := by
  have h := module_exports_run require s s₁ s₂ s₃ a b c hf ht ha
  refine ⟨_, h, ?_, ?_⟩
  · have ht := module_exports_run (traced require) (s, log) _ _ _ a b c
      (traced_run require _ s s₁ log a hf) (traced_run require _ s₁ s₂ _ b ht)
      (traced_run require _ s₂ s₃ _ c ha)
    simpa only [List.append_assoc, List.singleton_append] using ht
  · intro s₄ s₅ s₆ hf2 ht2 ha2
    have h2 := module_exports_run require s₃ s₄ s₅ s₆ a b c hf2 ht2 ha2
    simp only [loadTwice, StateT.run_bind, StateT.run_pure, h, ok_bind, h2]
    rfl

/-- C7, amended, at a host with an empty module cache and the three plugins
installed: the first load fills the cache, the second finds the plugins
cached, and both return the same record. -/
theorem load_effects_are_those_of_require_witness :
    ∃ cfg, (module_exports (cachingRequire installed)).run [] = Except.ok (cfg, warmCache) ∧
      (module_exports (traced (cachingRequire installed))).run ([], []) =
        Except.ok (cfg, (warmCache, ["@tailwindcss/forms", "@tailwindcss/typography",
          "@tailwindcss/aspect-ratio"])) ∧
      (loadTwice (cachingRequire installed)).run [] = Except.ok ((cfg, cfg), warmCache) := by
  obtain ⟨cfg, h1, h2, h3⟩ := load_effects_are_those_of_require (cachingRequire installed) []
    [("@tailwindcss/forms", "@tailwindcss/forms")]
    [("@tailwindcss/forms", "@tailwindcss/forms"),
     ("@tailwindcss/typography", "@tailwindcss/typography")]
    warmCache "@tailwindcss/forms" "@tailwindcss/typography" "@tailwindcss/aspect-ratio" []
    rfl rfl rfl
  exact ⟨cfg, h1, h2, h3 warmCache warmCache warmCache rfl rfl rfl⟩

/-- C8: when the plugins resolve, the entries of `plugins` are, in order, what
`require` returned for the identifiers loading passed to it, one call per
entry; those identifiers are `@tailwindcss/forms`, `@tailwindcss/typography`,
`@tailwindcss/aspect-ratio`: pairwise distinct, none listed twice. -/
theorem plugin_identifiers_nodup {σ ε M : Type} (require : String → StateT σ (Except ε) M)
    (s s₁ s₂ s₃ : σ) (a b c : M)
    (hf : (require "@tailwindcss/forms").run s = Except.ok (a, s₁))
    (ht : (require "@tailwindcss/typography").run s₁ = Except.ok (b, s₂))
    (ha : (require "@tailwindcss/aspect-ratio").run s₂ = Except.ok (c, s₃)) :
    ∃ cfg ids, (module_exports (traced require)).run (s, []) = Except.ok (cfg, (s₃, ids)) ∧
      cfg.get? "plugins" =
        some (Value.arr [Value.loaded a, Value.loaded b, Value.loaded c]) ∧
      ((cfg.get? "plugins").bind Value.elems).map List.length = some ids.length ∧
      ids = ["@tailwindcss/forms", "@tailwindcss/typography", "@tailwindcss/aspect-ratio"] ∧
      ids.Nodup := by
  refine ⟨_, _, module_exports_run (traced require) (s, []) _ _ _ a b c
    (traced_run require _ s s₁ [] a hf) (traced_run require _ s₁ s₂ _ b ht)
    (traced_run require _ s₂ s₃ _ c ha), rfl, rfl, rfl, ?_⟩
  decide

/-- C8 at a host with an empty module cache and the three plugins installed. -/
theorem plugin_identifiers_nodup_witness :
    ∃ cfg ids, (module_exports (traced (cachingRequire installed))).run ([], [])
        = Except.ok (cfg, (warmCache, ids)) ∧
      cfg.get? "plugins" =
        some (Value.arr [Value.loaded "@tailwindcss/forms",
          Value.loaded "@tailwindcss/typography", Value.loaded "@tailwindcss/aspect-ratio"]) ∧
      ((cfg.get? "plugins").bind Value.elems).map List.length = some ids.length ∧
      ids = ["@tailwindcss/forms", "@tailwindcss/typography", "@tailwindcss/aspect-ratio"] ∧
      ids.Nodup :=
  plugin_identifiers_nodup (cachingRequire installed) []
    [("@tailwindcss/forms", "@tailwindcss/forms")]
    [("@tailwindcss/forms", "@tailwindcss/forms"),
     ("@tailwindcss/typography", "@tailwindcss/typography")]
    warmCache "@tailwindcss/forms" "@tailwindcss/typography" "@tailwindcss/aspect-ratio"
    rfl rfl rfl

end TailwindConfig
